import Mathlib

/-!
Verification of the durable campaign-pipeline core of this repository.

The Python sources are shallowly embedded as pure Lean functions:

* `orchestrators/campaign_orchestrator.py` — the `CampaignOrchestration`
  orchestrator and its four activities.  Blob uploads become explicit
  `BlobWrite` values returned by each activity; the ambient wall-clock read
  `datetime.utcnow()` inside `evidence_builder_activity` becomes an explicit
  `today` argument; the orchestration context (instance id and
  `current_utc_datetime`) becomes explicit arguments.
* `status/__init__.py` — the merged status endpoint (`status_endpoint`).
* `function_app.py` — the registered `campaign/status` handler
  (`campaign_status`).
* `regenerate/__init__.py` — the regeneration endpoint (`regenerate`).
* `fetch/__init__.py` — the artifact fetch endpoint (`fetch`).

Python falsy-default idioms (`x or d`), `.strip()`, `.lower()`, `startswith`,
`endswith` and dict operations (`get`, `update`, `setdefault`) are modelled
explicitly below so that every definition can be evaluated on concrete input.
-/

/-- Python `x or d` on an optional string: `None` and `""` are falsy. -/
def pyOr (x : Option String) (d : String) : String :=
  match x with
  | none => d
  | some s => if s = "" then d else s

/-- Python `x or d` on an optional integer: `None` and `0` are falsy. -/
def pyOrInt (x : Option Int) (d : Int) : Int :=
  match x with
  | none => d
  | some n => if n = 0 then d else n

/-- Python `str.lower()` (ASCII case folding, as used on the inputs here). -/
def pyLower (s : String) : String := ⟨s.data.map Char.toLower⟩

/-- Python `str.strip()`: drop leading and trailing whitespace. -/
def pyStrip (s : String) : String :=
  ⟨((s.data.dropWhile Char.isWhitespace).reverse.dropWhile Char.isWhitespace).reverse⟩

/-- Python `s.startswith(p)`. -/
def pyStartswith (s p : String) : Bool := p.data.isPrefixOf s.data

/-- Python `s.endswith(p)`. -/
def pyEndswith (s p : String) : Bool := p.data.isSuffixOf s.data

/-- JSON-like values, the payloads moved between the components. -/
inductive Json where
  | str (s : String)
  | int (n : Int)
  | bool (b : Bool)
  | null
  | arr (xs : List Json)
  | obj (fields : List (String × Json))

/-- `None`-aware embedding of an optional JSON value (Python `None` ⇒ `null`). -/
def jsonOfOpt (x : Option Json) : Json :=
  match x with
  | none => Json.null
  | some j => j

/-- `None`-aware embedding of an optional string (Python `None` ⇒ `null`). -/
def jsonOfOptStr (x : Option String) : Json :=
  match x with
  | none => Json.null
  | some s => Json.str s

/-- Python `d.get(k)` on a JSON object rendered as an association list. -/
def dictGet (d : List (String × Json)) (k : String) : Option Json :=
  (d.find? (fun p => p.1 = k)).map Prod.snd

/-- Python `d.get(k)` on a string-valued dict. -/
def dictGetS (d : List (String × String)) (k : String) : Option String :=
  (d.find? (fun p => p.1 = k)).map Prod.snd

/-- Python `d[k] = v`: overwrite in place, else append. -/
def dictSet (d : List (String × Json)) (k : String) (v : Json) : List (String × Json) :=
  if d.any (fun p => p.1 = k) then d.map (fun p => if p.1 = k then (k, v) else p)
  else d ++ [(k, v)]

/-- Python `d.update(data)`. -/
def dictUpdate (d data : List (String × Json)) : List (String × Json) :=
  data.foldl (fun acc p => dictSet acc p.1 p.2) d

/-- Python `d.setdefault(k, v)` (the resulting dict). -/
def dictSetdefault (d : List (String × Json)) (k : String) (v : Json) : List (String × Json) :=
  if d.any (fun p => p.1 = k) then d else d ++ [(k, v)]

/-- One blob upload performed through `_upload_json` (`overwrite=True` in the
source becomes the `overwrite` field; the serialized payload is kept as its
JSON value, `json.dumps` being a deterministic function of it). -/
structure BlobWrite where
  name : String
  data : Json
  overwrite : Bool

/-- `_status_blob_path` from `campaign_orchestrator.py`. -/
def _status_blob_path (pre : String) : String := pre ++ "status.json"

/-- `_evidence_blob_path` from `campaign_orchestrator.py`. -/
def _evidence_blob_path (pre : String) : String := pre ++ "evidence_log.json"

/-- `_campaign_blob_path` from `campaign_orchestrator.py`. -/
def _campaign_blob_path (pre : String) : String := pre ++ "campaign.json"

/-- `_write_status` from `campaign_orchestrator.py`: the Stage Record upload.
`page` and `row_count` are `Option`-typed to keep Python's dynamic `None`
visible; `int(row_count or 0)` and `page or ""` are the falsy defaults. -/
def _write_status (pre run_id state : String) (page : Option String)
    (row_count : Option Int) : BlobWrite :=
  { name := _status_blob_path pre
    overwrite := true
    data := Json.obj [
      ("runId", Json.str run_id),
      ("state", Json.str state),
      ("input", Json.obj [
        ("rowCount", Json.int (pyOrInt row_count 0)),
        ("page", Json.str (pyOr page ""))])] }

/-- `IGNORED_COLUMNS` from `campaign_orchestrator.py`. -/
def IGNORED_COLUMNS : List String := ["AdopterProfile", "TopConnectivity"]

/-- An Evidence Item as built by `evidence_builder_activity`. -/
structure Evidence where
  id : String
  publisher : String
  title : String
  date : String
  url : String
  excerpt : String
deriving DecidableEq

/-- JSON encoding of one Evidence Item (field order as in the source dict). -/
def evidenceJson (e : Evidence) : Json :=
  Json.obj [
    ("id", Json.str e.id),
    ("publisher", Json.str e.publisher),
    ("title", Json.str e.title),
    ("date", Json.str e.date),
    ("url", Json.str e.url),
    ("excerpt", Json.str e.excerpt)]

/-- Input dict of `validate_input_activity` (the JSON key for `pre` is
`"prefix"`; Lean reserves that word). -/
structure ValidateIn where
  pre : String
  run_id : String
  page : String
  row_count : Int
  filters : Option Json
  csv_sha256 : Option String
  company : Option Json

/-- Input dict of `evidence_builder_activity`. -/
structure EvidenceIn where
  pre : String
  run_id : String
  page : String
  row_count : Int
  company : Option Json

/-- Input dict of `campaign_draft_activity`. -/
structure DraftIn where
  pre : String
  run_id : String
  page : String
  row_count : Int
  evidence_log : List Evidence
  filters : Option Json
  csv_sha256 : Option String
  company : Option Json

/-- Input dict of `validator_activity`. -/
structure ValidatorIn where
  pre : String
  run_id : String
  page : String
  row_count : Int
  company : Option Json

/-- Return dict of `evidence_builder_activity`; `evidence_log` is optional so
that a result dict lacking the key (as `.get("evidence_log", [])` allows for)
is representable. -/
structure EvidenceResult where
  evidence_log : Option (List Evidence)

/-- `validate_input_activity`: one Stage Record write, then the
`input_proof` result dict. -/
def validate_input_activity (i : ValidateIn) : List BlobWrite × Json :=
  ([_write_status i.pre i.run_id "ValidatingInput" (some i.page) (some i.row_count)],
   Json.obj [
     ("ok", Json.bool true),
     ("input_proof", Json.obj [
       ("run_id", Json.str i.run_id),
       ("csv_sha256", Json.str (pyOr i.csv_sha256 "unknown")),
       ("row_count", Json.int i.row_count),
       ("filters", jsonOfOpt i.filters),
       ("ignored_columns_confirmed", Json.arr (IGNORED_COLUMNS.map Json.str))])])

/-- `evidence_builder_activity`: `today` is the activity's own
`datetime.utcnow().strftime("%Y-%m-%d")` read, made explicit — an ambient
wall-clock value that flows into the persisted `evidence_log.json`. -/
def evidence_builder_activity (i : EvidenceIn) (today : String) :
    List BlobWrite × EvidenceResult :=
  let log : List Evidence := [
    { id := "ev-001"
      publisher := "Ofcom"
      title := "SME adoption trends 2025"
      date := today
      url := "https://example.org/ofcom-sme-trends"
      excerpt := "Indicators point to increased UC adoption among UK SMEs." },
    { id := "ev-002"
      publisher := "ONS"
      title := "UK business demography highlights"
      date := today
      url := "https://example.org/ons-business-demography"
      excerpt := "Active enterprise growth centered in digital and services sectors." }]
  ([_write_status i.pre i.run_id "EvidenceBuilder" (some i.page) (some i.row_count),
    { name := _evidence_blob_path i.pre
      overwrite := true
      data := Json.arr (log.map evidenceJson) }],
   { evidence_log := some log })

/-- The `campaign.json` value composed by `campaign_draft_activity`. -/
def campaignJson (i : DraftIn) : Json :=
  Json.obj [
    ("executive_summary", Json.str
      ("Executive summary for page \x27" ++ i.page ++
       "\x27. Placeholder draft from the skeleton pipeline.")),
    ("landing_page", Json.obj [
      ("headline", Json.str "Grow Faster with Inside Track"),
      ("subheadline", Json.str "Target the right UK tech buyers with evidence-led messaging."),
      ("sections", Json.arr [
        Json.obj [
          ("title", Json.str "Value Proposition"),
          ("content", Json.str "We find and prioritize the prospects most likely to buy, then arm your team with proof.")],
        Json.obj [
          ("title", Json.str "Features"),
          ("bullets", Json.arr [
            Json.str "Segment insights",
            Json.str "Evidence-led content",
            Json.str "Sales enablement toolkit"])]]),
      ("cta", Json.str "Book a discovery call")]),
    ("emails", Json.arr [
      Json.obj [
        ("subject", Json.str "How UK tech sellers are winning share from the big telcos"),
        ("preview", Json.str "Quick intro to a data-backed approach to outreach."),
        ("body", Json.str "Hi \x7b\x7bFirstName\x7d\x7d,\n\nWe help UK tech providers win market share using evidence-led outreach...")],
      Json.obj [
        ("subject", Json.str "A 6-month plan to increase response rates"),
        ("preview", Json.str "What changes when you use Inside Track evidence."),
        ("body", Json.str "Hi \x7b\x7bFirstName\x7d\x7d,\n\nHere\u2019s a simple plan to double-down on the segments most likely to engage...")]]),
    ("sales_enablement", Json.obj [
      ("call_script", Json.str "OPENER → CONTEXT → PROOF → ASK. Example: \x27We work with UK tech firms who are shifting share from the telcos...\x27"),
      ("one_pager", Json.str "Inside Track overview: problem, approach, proof-points, outcomes, CTA.")]),
    ("evidence_log", Json.arr (i.evidence_log.map evidenceJson)),
    ("input_proof", Json.obj [
      ("run_id", Json.str i.run_id),
      ("csv_sha256", Json.str (pyOr i.csv_sha256 "unknown")),
      ("row_count", Json.int i.row_count),
      ("filters", jsonOfOpt i.filters),
      ("ignored_columns_confirmed", Json.arr (IGNORED_COLUMNS.map Json.str))]),
    ("meta", Json.obj [
      ("tone_profile", Json.str "professional"),
      ("persona_focus", Json.str "UK tech decision-maker"),
      ("evidence_window_months", Json.int 6),
      ("compliance_footer", Json.bool true)])]

/-- `campaign_draft_activity`: one Stage Record write, the `campaign.json`
artifact write, and the `{"ok": true}` result. -/
def campaign_draft_activity (i : DraftIn) : List BlobWrite × Json :=
  ([_write_status i.pre i.run_id "DraftCampaign" (some i.page) (some i.row_count),
    { name := _campaign_blob_path i.pre
      overwrite := true
      data := campaignJson i }],
   Json.obj [("ok", Json.bool true)])

/-- `validator_activity`: Stage Record writes `QualityGate` then `Completed`,
in that order, both issued before the result is returned. -/
def validator_activity (i : ValidatorIn) : List BlobWrite × Json :=
  ([_write_status i.pre i.run_id "QualityGate" (some i.page) (some i.row_count),
    _write_status i.pre i.run_id "Completed" (some i.page) (some i.row_count)],
   Json.obj [("ok", Json.bool true)])

/-- The `input` dict a client can pass to `CampaignOrchestration`
(`context.get_input()`); every field may be absent. -/
structure RunInput where
  page : Option String
  rowCount : Option Int
  filters : Option Json
  csv_sha256 : Option String
  company : Option Json

/-- `context.get_input() or {}` when the input is `None`. -/
def emptyRunInput : RunInput :=
  { page := none, rowCount := none, filters := none, csv_sha256 := none, company := none }

/-- One activity invocation issued by the orchestrator, with its input. -/
inductive ActivityCall where
  | validate_input (i : ValidateIn)
  | evidence_builder (i : EvidenceIn)
  | campaign_draft (i : DraftIn)
  | validator (i : ValidatorIn)

/-- The registered activity name each call addresses. -/
def ActivityCall.activityName : ActivityCall → String
  | .validate_input _ => "validate_input_activity"
  | .evidence_builder _ => "evidence_builder_activity"
  | .campaign_draft _ => "campaign_draft_activity"
  | .validator _ => "validator_activity"

/-- The evidence list carried by the `campaign_draft` call of a trace, if any
(first such call). -/
def draftEvidenceOf : List ActivityCall → Option (List Evidence)
  | [] => none
  | .campaign_draft i :: _ => some i.evidence_log
  | _ :: rest => draftEvidenceOf rest

/-- The orchestrator's terminal custom status
(`context.set_custom_status({"state": ..., "runId": ...})`). -/
structure CustomStatus where
  state : String
  runId : String
deriving DecidableEq

/-- The orchestrator's return dict `{"runId", "prefix", "result"}` (the JSON
key of `pre` is `"prefix"`). -/
structure OrchResult (ρ : Type) where
  runId : String
  pre : String
  result : ρ

/-- `CampaignOrchestration` from `campaign_orchestrator.py`, replay-safe body
as a pure function.  `instance_id` and the `yyyy`/`mm`/`dd` rendering of
`context.current_utc_datetime` (read exactly once) come from the orchestration
context; `evidence_result` and `validator_result` stand for the values the two
result-bearing activity calls yield back (the results of the `validate_input`
and `campaign_draft` calls are discarded by the source, as here).  The
function returns the ordered activity-call trace, the terminal custom status,
and the return dict; it has no storage access at all — activity return values
are its only input channel. -/
def CampaignOrchestration (ρ : Type) (instance_id : String)
    (input_data : Option RunInput) (yyyy mm dd : String)
    (evidence_result : Option EvidenceResult) (validator_result : ρ) :
    List ActivityCall × CustomStatus × OrchResult ρ :=
  let inp := input_data.getD emptyRunInput
  let run_id := instance_id
  let page := pyOr inp.page "default"
  let row_count := pyOrInt inp.rowCount 0
  let pre := "results/campaign/" ++ page ++ "/" ++ yyyy ++ "/" ++ mm ++ "/" ++ dd
               ++ "/" ++ run_id ++ "/"
  let evidence := evidence_result.getD { evidence_log := none }
  let evidence_log := evidence.evidence_log.getD []
  ([ActivityCall.validate_input
      { pre := pre, run_id := run_id, page := page, row_count := row_count,
        filters := inp.filters, csv_sha256 := inp.csv_sha256, company := inp.company },
    ActivityCall.evidence_builder
      { pre := pre, run_id := run_id, page := page, row_count := row_count,
        company := inp.company },
    ActivityCall.campaign_draft
      { pre := pre, run_id := run_id, page := page, row_count := row_count,
        evidence_log := evidence_log, filters := inp.filters,
        csv_sha256 := inp.csv_sha256, company := inp.company },
    ActivityCall.validator
      { pre := pre, run_id := run_id, page := page, row_count := row_count,
        company := inp.company }],
   { state := "Completed", runId := run_id },
   { runId := run_id, pre := pre, result := validator_result })

/-- One full run: the orchestrator body with each activity call executed by
the corresponding activity, accumulating every blob write in issue order.
`today` is the wall-clock date `evidence_builder_activity` reads for itself. -/
def runCampaign (instance_id : String) (input_data : Option RunInput)
    (yyyy mm dd today : String) :
    List BlobWrite × CustomStatus × OrchResult Json :=
  let inp := input_data.getD emptyRunInput
  let run_id := instance_id
  let page := pyOr inp.page "default"
  let row_count := pyOrInt inp.rowCount 0
  let pre := "results/campaign/" ++ page ++ "/" ++ yyyy ++ "/" ++ mm ++ "/" ++ dd
               ++ "/" ++ run_id ++ "/"
  let v := validate_input_activity
    { pre := pre, run_id := run_id, page := page, row_count := row_count,
      filters := inp.filters, csv_sha256 := inp.csv_sha256, company := inp.company }
  let e := evidence_builder_activity
    { pre := pre, run_id := run_id, page := page, row_count := row_count,
      company := inp.company } today
  let evidence := (some e.2).getD { evidence_log := none }
  let evidence_log := evidence.evidence_log.getD []
  let d := campaign_draft_activity
    { pre := pre, run_id := run_id, page := page, row_count := row_count,
      evidence_log := evidence_log, filters := inp.filters,
      csv_sha256 := inp.csv_sha256, company := inp.company }
  let q := validator_activity
    { pre := pre, run_id := run_id, page := page, row_count := row_count,
      company := inp.company }
  (v.1 ++ e.1 ++ d.1 ++ q.1,
   { state := "Completed", runId := run_id },
   { runId := run_id, pre := pre, result := q.2 })

/-- An HTTP response: status code plus body (text bodies are `Json.str`). -/
structure HttpResponse where
  status_code : Nat
  body : Json

/-- `_map_runtime_to_state` from `status/__init__.py` (`None` and `""` are the
falsy runtime statuses). -/
def _map_runtime_to_state (runtime_status : Option String) : String :=
  match runtime_status with
  | none => "ValidatingInput"
  | some rs =>
    if rs = "" then "ValidatingInput"
    else if rs = "Pending" then "ValidatingInput"
    else if rs = "Running" then "DraftCampaign"
    else if rs = "Completed" then "Completed"
    else if rs = "Failed" then "Failed"
    else if rs = "Terminated" then "Failed"
    else "ValidatingInput"

/-- What `client.get_status` exposes to `status/__init__.py` (each field read
with a `None`-defaulting `getattr`; `custom_status` values written by this
system are strings). -/
structure EngineStatus where
  runtime_status : Option String
  custom_status : Option (List (String × String))
  created_time : Option String
  last_updated_time : Option String

/-- The merged `campaign/status` handler from `status/__init__.py`.
`blobRecord` is the parsed `status.json` found by the suffix scan (or `none`
when no Stage Record exists / storage fails); the engine side is `none` when
the engine has no record.  The source always answers 200 unless `runId` is
missing. -/
def status_endpoint (runId_param : Option String) (engine : Option EngineStatus)
    (blobRecord : Option (List (String × Json))) : HttpResponse :=
  let run_id := pyOr runId_param ""
  if run_id = "" then { status_code := 400, body := Json.str "Missing runId" }
  else
    let runtime_status := engine.bind (fun s => s.runtime_status)
    let custom_status := engine.bind (fun s => s.custom_status)
    let state_from_runtime :=
      match custom_status with
      | some cs =>
        match dictGetS cs "state" with
        | some s => s
        | none => _map_runtime_to_state runtime_status
      | none => _map_runtime_to_state runtime_status
    let resp : List (String × Json) :=
      [("runId", Json.str run_id),
       ("state", Json.str state_from_runtime),
       ("runtime", Json.obj [
         ("runtimeStatus", jsonOfOptStr runtime_status),
         ("customStatus",
           match custom_status with
           | some cs => Json.obj (cs.map (fun p => (p.1, Json.str p.2)))
           | none => Json.null),
         ("createdTime", jsonOfOptStr (engine.bind (fun s => s.created_time))),
         ("lastUpdatedTime", jsonOfOptStr (engine.bind (fun s => s.last_updated_time)))])]
    let merged :=
      match blobRecord with
      | none => resp
      | some data => dictUpdate resp (dictSetdefault data "runId" (Json.str run_id))
    { status_code := 200, body := Json.obj merged }

/-- The reported stage of a status response body. -/
def reportedState (r : HttpResponse) : Option Json :=
  match r.body with
  | Json.obj d => dictGet d "state"
  | _ => none

/-- One engine record as `function_app.py`'s `campaign_status` reads it. -/
structure DurableStatus where
  instance_id : String
  runtime_status : String
  created_time : Option String
  last_updated_time : Option String
  custom_status : Json
  output : Json

/-- `campaign_status` from `function_app.py` — the handler registered on
`GET /api/campaign/status` (the merged handler in `status/__init__.py` is a
module `function_app.py` never loads).  It consults only the engine: a `None`
engine record answers 404 before any ledger access. -/
def campaign_status (runId_param : Option String) (engine : Option DurableStatus) :
    HttpResponse :=
  let run_id := pyOr runId_param ""
  if run_id = "" then
    { status_code := 400, body := Json.obj [("error", Json.str "Missing runId")] }
  else
    match engine with
    | none => { status_code := 404, body := Json.obj [("error", Json.str "NotFound")] }
    | some st =>
      { status_code := 200
        body := Json.obj [
          ("instanceId", Json.str st.instance_id),
          ("runtimeStatus", Json.str st.runtime_status),
          ("createdTime", jsonOfOptStr st.created_time),
          ("lastUpdatedTime", jsonOfOptStr st.last_updated_time),
          ("customStatus", st.custom_status),
          ("output", st.output)] }

/-- Request body of `regenerate` (the JSON key of `sect` is `"section"`;
Lean reserves that word). -/
structure RegenBody where
  runId : Option String
  sect : Option String
  tone : Option String
  toneOverride : Option String

/-- Payload handed to the `RegenerateSectionOrchestration` instance. -/
structure RegenPayload where
  runId : String
  sect : String
  toneOverride : Option String
deriving DecidableEq

/-- Outcome of the `regenerate` handler: either a 400 rejection with no
instance started and no side effects, or the start of (or attach to) the
orchestration instance with the given identity. -/
inductive RegenOutcome where
  | rejected (status_code : Nat) (msg : String)
  | started (instance_id : String) (orchestration : String) (payload : RegenPayload)

/-- The rejection message of `regenerate`. -/
def regenErrorMsg : String :=
  "Missing or invalid inputs. Expect \x7b \"runId\": \"...\", \"section\": \"landing|emails|sales|overview\" \x7d"

/-- The allowed regeneration sections. -/
def allowedSections : List String := ["landing", "emails", "sales", "overview"]

/-- `regenerate` from `regenerate/__init__.py`, up to instance management:
validation happens before any instance is started; on success the instance
identity is the deterministic `runId ++ "-regen-" ++ section` string. -/
def regenerate (body : RegenBody) : RegenOutcome :=
  let run_id := pyStrip (pyOr body.runId "")
  let sect := pyLower (pyStrip (pyOr body.sect ""))
  let tone :=
    let t := pyLower (pyStrip (pyOr body.tone (pyOr body.toneOverride "")))
    if t = "" then none else some t
  if run_id = "" ∨ ¬ (sect ∈ allowedSections) then
    RegenOutcome.rejected 400 regenErrorMsg
  else
    RegenOutcome.started (run_id ++ "-regen-" ++ sect) "RegenerateSectionOrchestration"
      { runId := run_id, sect := sect, toneOverride := tone }

/-- The instance identity an outcome targets, if any. -/
def regenInstanceId : RegenOutcome → Option String
  | RegenOutcome.rejected _ _ => none
  | RegenOutcome.started iid _ _ => some iid

/-- The suffix scan of `fetch`: list blobs under `results/campaign/` and pick
the first whose name ends in `/{runId}/{filename}`.  `blobs` is the artifact
store listing as (name, content) pairs. -/
def fetchLookup (blobs : List (String × String)) (run_id filename : String) :
    Option (String × String) :=
  (blobs.filter (fun b => pyStartswith b.1 "results/campaign/")).find?
    (fun b => pyEndswith b.1 ("/" ++ run_id ++ "/" ++ filename))

/-- The `file`/`kind` → artifact-name mapping of `fetch` (the `"json"` entry
is an alias of `"campaign"`). -/
def fetchMapping : List (String × String) :=
  [("campaign", "campaign.json"),
   ("evidence", "evidence_log.json"),
   ("status", "status.json"),
   ("json", "campaign.json")]

/-- `fetch` from `fetch/__init__.py`: `kind` defaults to `"campaign"` when
both the `file` and `kind` query parameters are falsy, is normalised by
`strip().lower()`, and is looked up in `fetchMapping`; a missing `runId` is a
400, an unknown kind a 400, and an empty suffix scan a 404. -/
def fetch (runId_param fileParam kindParam : Option String)
    (blobs : List (String × String)) : HttpResponse :=
  let kind := pyLower (pyStrip (pyOr fileParam (pyOr kindParam "campaign")))
  let run_id := pyOr runId_param ""
  if run_id = "" then { status_code := 400, body := Json.str "Missing runId" }
  else
    match fetchMapping.find? (fun p => p.1 = kind) with
    | none =>
      { status_code := 400, body := Json.str "Invalid file param. Use campaign|evidence|status." }
    | some m =>
      match fetchLookup blobs run_id m.2 with
      | none => { status_code := 404, body := Json.str "Not found" }
      | some b => { status_code := 200, body := Json.str b.2 }

/-- Concrete activity input used to exhibit the wall-clock dependence of
`evidence_builder_activity`. -/
def c3EvidenceIn : EvidenceIn :=
  { pre := "results/campaign/default/2025/01/01/r1/", run_id := "r1",
    page := "default", row_count := 0, company := none }

theorem string_append_ne_right {a b : String} (p : String) (h : a ≠ b) :
    p ++ a ≠ p ++ b := by
  intro he
  apply h
  have hd : p.data ++ a.data = p.data ++ b.data := by
    have := congrArg String.data he
    simpa using this
  have h2 := List.append_cancel_left hd
  cases a; cases b; exact congrArg String.mk h2

theorem fetch_eval (rid : String) (f k : Option String) (blobs : List (String × String))
    (hr : rid ≠ "") :
    fetch (some rid) f k blobs =
      (match fetchMapping.find?
          (fun p => p.1 = pyLower (pyStrip (pyOr f (pyOr k "campaign")))) with
       | none =>
         { status_code := 400, body := Json.str "Invalid file param. Use campaign|evidence|status." }
       | some m =>
         match fetchLookup blobs rid m.2 with
         | none => { status_code := 404, body := Json.str "Not found" }
         | some b => { status_code := 200, body := Json.str b.2 }) := by
  unfold fetch
  rw [show pyOr (some rid) "" = rid from by simp [pyOr, hr], if_neg hr]

/-- C1: for every input, `CampaignOrchestration` issues exactly the four
activity calls `validate_input`, `evidence_builder`, `campaign_draft`,
`validator`, in that fixed order with no parallelism (the trace is a single
sequential list); the evidence list passed to `campaign_draft` is exactly the
list carried by `evidence_builder`'s return value (the orchestrator has no
storage-read channel at all); and on success it sets custom status
`{state: Completed, runId}` and returns `{runId, prefix, result}` with
`result` the `validator` activity's return value. -/
theorem campaignOrchestration_fixed_sequence (ρ : Type) (iid : String)
    (input_data : Option RunInput) (yyyy mm dd : String) (log : List Evidence)
    (vres : ρ) :
    ((CampaignOrchestration ρ iid input_data yyyy mm dd
        (some { evidence_log := some log }) vres).1.map ActivityCall.activityName =
      ["validate_input_activity", "evidence_builder_activity",
       "campaign_draft_activity", "validator_activity"])
    ∧ draftEvidenceOf (CampaignOrchestration ρ iid input_data yyyy mm dd
        (some { evidence_log := some log }) vres).1 = some log
    ∧ (CampaignOrchestration ρ iid input_data yyyy mm dd
        (some { evidence_log := some log }) vres).2.1
        = { state := "Completed", runId := iid }
    ∧ (CampaignOrchestration ρ iid input_data yyyy mm dd
        (some { evidence_log := some log }) vres).2.2.runId = iid
    ∧ (CampaignOrchestration ρ iid input_data yyyy mm dd
        (some { evidence_log := some log }) vres).2.2.result = vres
    ∧ (CampaignOrchestration ρ iid input_data yyyy mm dd
        (some { evidence_log := some log }) vres).2.2.pre
        = "results/campaign/" ++ pyOr (input_data.getD emptyRunInput).page "default"
            ++ "/" ++ yyyy ++ "/" ++ mm ++ "/" ++ dd ++ "/" ++ iid ++ "/" :=
  ⟨rfl, rfl, rfl, rfl, rfl, rfl⟩

/-- C2 counterexample: with no Stage Record present and the engine reporting
`runtimeStatus = Running` together with a `customStatus` carrying
`state = Completed`, the merged endpoint reports stage `Completed`, not the
claimed runtime mapping `Running → DraftCampaign`. -/
theorem status_merge_runtime_mapping_counterexample :
    reportedState (status_endpoint (some "r1")
        (some { runtime_status := some "Running",
                custom_status := some [("state", "Completed"), ("runId", "r1")],
                created_time := none, last_updated_time := none }) none)
      = some (Json.str "Completed")
    ∧ _map_runtime_to_state (some "Running") = "DraftCampaign"
    ∧ ("Completed" : String) ≠ "DraftCampaign" :=
  ⟨rfl, rfl, by decide⟩

/-- C2 amended: when a Stage Record exists its `state` field overrides the
engine-derived value; when none exists the reported stage is the engine
customStatus's `state` field when that is present, and otherwise the engine
`runtimeStatus` mapped `Pending→ValidatingInput`, `Running→DraftCampaign`,
`Completed→Completed`, `Failed|Terminated→Failed` (absent/unknown statuses
also map to `ValidatingInput`). -/
theorem status_merge_amended :
    (∀ (r : String) (engine : Option EngineStatus) (rid st : String) (inpJ : Json),
      r ≠ "" →
      reportedState (status_endpoint (some r) engine
          (some [("runId", Json.str rid), ("state", Json.str st), ("input", inpJ)]))
        = some (Json.str st))
    ∧ (∀ (r : String) (rs : Option String) (ct lt : Option String)
         (cs : List (String × String)) (s : String),
        r ≠ "" → dictGetS cs "state" = some s →
        reportedState (status_endpoint (some r)
            (some { runtime_status := rs, custom_status := some cs,
                    created_time := ct, last_updated_time := lt }) none)
          = some (Json.str s))
    ∧ (∀ (r : String) (rs : Option String) (ct lt : Option String)
         (cs : List (String × String)),
        r ≠ "" → dictGetS cs "state" = none →
        reportedState (status_endpoint (some r)
            (some { runtime_status := rs, custom_status := some cs,
                    created_time := ct, last_updated_time := lt }) none)
          = some (Json.str (_map_runtime_to_state rs)))
    ∧ (∀ (r : String) (rs : Option String) (ct lt : Option String),
        r ≠ "" →
        reportedState (status_endpoint (some r)
            (some { runtime_status := rs, custom_status := none,
                    created_time := ct, last_updated_time := lt }) none)
          = some (Json.str (_map_runtime_to_state rs)))
    ∧ (∀ r : String, r ≠ "" →
        reportedState (status_endpoint (some r) none none)
          = some (Json.str "ValidatingInput"))
    ∧ _map_runtime_to_state (some "Pending") = "ValidatingInput"
    ∧ _map_runtime_to_state (some "Running") = "DraftCampaign"
    ∧ _map_runtime_to_state (some "Completed") = "Completed"
    ∧ _map_runtime_to_state (some "Failed") = "Failed"
    ∧ _map_runtime_to_state (some "Terminated") = "Failed" := by
  refine ⟨?_, ?_, ?_, ?_, ?_, rfl, rfl, rfl, rfl, rfl⟩
  · intro r engine rid st inpJ hr
    simp [status_endpoint, pyOr, hr, dictUpdate, dictSet, dictSetdefault, dictGet,
      reportedState]
  · intro r rs ct lt cs s hr hcs
    simp [status_endpoint, pyOr, hr, hcs, reportedState, dictGet]
  · intro r rs ct lt cs hr hcs
    simp [status_endpoint, pyOr, hr, hcs, reportedState, dictGet]
  · intro r rs ct lt hr
    simp [status_endpoint, pyOr, hr, reportedState, dictGet]
  · intro r hr
    simp [status_endpoint, pyOr, hr, reportedState, dictGet, _map_runtime_to_state]

/-- C2 amended, witnessed at concrete inputs: a Stage Record with
`state = QualityGate` overrides an engine `Running` report, and with no
Stage Record and no custom state the `Pending` runtime maps to
`ValidatingInput`. -/
theorem status_merge_amended_witness :
    reportedState (status_endpoint (some "r1")
        (some { runtime_status := some "Running", custom_status := none,
                created_time := none, last_updated_time := none })
        (some [("runId", Json.str "r1"), ("state", Json.str "QualityGate"),
               ("input", Json.null)]))
      = some (Json.str "QualityGate")
    ∧ reportedState (status_endpoint (some "r1")
        (some { runtime_status := some "Pending", custom_status := none,
                created_time := none, last_updated_time := none }) none)
      = some (Json.str (_map_runtime_to_state (some "Pending"))) :=
  ⟨status_merge_amended.1 "r1" _ "r1" "QualityGate" Json.null (by decide),
   status_merge_amended.2.2.2.1 "r1" (some "Pending") none none (by decide)⟩

/-- C3: re-running `evidence_builder_activity` with identical input does NOT
always persist byte-identical artifacts — the activity embeds its own
`datetime.utcnow()` date into every evidence item, so a re-run on a later UTC
date uploads a different `evidence_log.json`.  Concretely, the same input run
on 2025-01-01 and on 2025-01-02 produces different write lists. -/
theorem evidence_builder_embeds_wall_clock_date :
    (evidence_builder_activity c3EvidenceIn "2025-01-01").1
      ≠ (evidence_builder_activity c3EvidenceIn "2025-01-02").1 := by
  intro h
  simp [evidence_builder_activity, evidenceJson, _write_status, _status_blob_path,
    _evidence_blob_path, c3EvidenceIn] at h

/-- C4: for every non-blank `run_id` and every section in the allowed set,
a `Regenerate` call computes and targets the instance identity
`"{run_id}-regen-{section}"` exactly, independently of the tone fields — so
any two calls with the same `(run_id, section)` pair converge on one
instance. -/
theorem regenerate_instance_id_deterministic (r s : String)
    (tone1 toneOverride1 tone2 toneOverride2 : Option String)
    (hr : pyStrip r ≠ "") (hs : s ∈ allowedSections) :
    regenInstanceId (regenerate
        { runId := some r, sect := some s, tone := tone1, toneOverride := toneOverride1 })
      = some (pyStrip r ++ "-regen-" ++ s)
    ∧ regenInstanceId (regenerate
        { runId := some r, sect := some s, tone := tone2, toneOverride := toneOverride2 })
      = some (pyStrip r ++ "-regen-" ++ s) := by
  have hr0 : r ≠ "" := by
    intro h0
    exact hr (by simp [h0, pyStrip])
  have h1 : pyOr (some r) "" = r := by simp [pyOr, hr0]
  have hsect : pyLower (pyStrip (pyOr (some s) "")) = s := by
    fin_cases hs <;> decide
  have hcond : ¬ (pyStrip r = "" ∨ ¬ (s ∈ allowedSections)) := by
    intro hc
    rcases hc with hc | hc
    · exact hr hc
    · exact hc hs
  have key : ∀ t o : Option String,
      regenInstanceId (regenerate
          { runId := some r, sect := some s, tone := t, toneOverride := o })
        = some (pyStrip r ++ "-regen-" ++ s) := by
    intro t o
    simp only [regenerate, h1, hsect]
    rw [if_neg hcond]
    rfl
  exact ⟨key tone1 toneOverride1, key tone2 toneOverride2⟩

/-- C4, witnessed: two `Regenerate` calls for `("R7", "landing")` with
different tones both target the identity `"R7-regen-landing"`. -/
theorem regenerate_instance_id_deterministic_witness :
    regenInstanceId (regenerate
        { runId := some "R7", sect := some "landing", tone := none, toneOverride := none })
      = some "R7-regen-landing"
    ∧ regenInstanceId (regenerate
        { runId := some "R7", sect := some "landing", tone := some "warm", toneOverride := none })
      = some "R7-regen-landing" :=
  regenerate_instance_id_deterministic "R7" "landing" none none (some "warm") none
    (by decide) (by decide)

/-- C5: for every run, the artifact path prefix equals
`results/campaign/{page}/{yyyy}/{mm}/{dd}/{run_id}/` — a pure function of the
instance id, the input page (defaulted to `"default"`), and the
`yyyy`/`mm`/`dd` rendering of the context's logical timestamp, which enters
`runCampaign`/`CampaignOrchestration` once as an argument (no wall-clock call
exists in the orchestrator body) — and the full run writes exactly the
artifacts `status.json`, `evidence_log.json` and `campaign.json` under that
prefix. -/
theorem runCampaign_prefix_and_artifacts (iid : String) (input_data : Option RunInput)
    (yyyy mm dd today : String) :
    (runCampaign iid input_data yyyy mm dd today).2.2.pre
      = "results/campaign/" ++ pyOr (input_data.getD emptyRunInput).page "default"
          ++ "/" ++ yyyy ++ "/" ++ mm ++ "/" ++ dd ++ "/" ++ iid ++ "/"
    ∧ (runCampaign iid input_data yyyy mm dd today).1.map BlobWrite.name =
      [(runCampaign iid input_data yyyy mm dd today).2.2.pre ++ "status.json",
       (runCampaign iid input_data yyyy mm dd today).2.2.pre ++ "status.json",
       (runCampaign iid input_data yyyy mm dd today).2.2.pre ++ "evidence_log.json",
       (runCampaign iid input_data yyyy mm dd today).2.2.pre ++ "status.json",
       (runCampaign iid input_data yyyy mm dd today).2.2.pre ++ "campaign.json",
       (runCampaign iid input_data yyyy mm dd today).2.2.pre ++ "status.json",
       (runCampaign iid input_data yyyy mm dd today).2.2.pre ++ "status.json"] :=
  ⟨rfl, rfl⟩

/-- C6: the handler registered on `GET /api/campaign/status`
(`campaign_status` in `function_app.py`) answers 404 `NotFound` for a run the
engine has no record of — in particular when additionally no Stage Record
exists in the ledger, as the claim assumes — rather than a normal status
payload. -/
theorem campaign_status_unknown_run_not_found (r : String)
    (ledger : Option (List (String × Json))) (hr : r ≠ "") (_hledger : ledger = none) :
    campaign_status (some r) none
      = { status_code := 404, body := Json.obj [("error", Json.str "NotFound")] } := by
  simp [campaign_status, pyOr, hr]

/-- C6, witnessed at a concrete unknown run id. -/
theorem campaign_status_unknown_run_not_found_witness :
    campaign_status (some "no-such-run") none
      = { status_code := 404, body := Json.obj [("error", Json.str "NotFound")] } :=
  campaign_status_unknown_run_not_found "no-such-run" none (by decide) rfl

/-- C7: one invocation of `validator_activity` performs exactly two Status
Ledger writes, `stage=QualityGate` first and `stage=Completed` second, both
issued (in that order) before the activity's return value is produced. -/
theorem validator_two_status_writes (i : ValidatorIn) :
    (validator_activity i).1 =
      [_write_status i.pre i.run_id "QualityGate" (some i.page) (some i.row_count),
       _write_status i.pre i.run_id "Completed" (some i.page) (some i.row_count)] :=
  rfl

/-- C8: a `Regenerate` request with a blank `run_id` or a section outside
`{landing, emails, sales, overview}` is rejected with a 400 before any
orchestration instance is started (the `rejected` outcome carries no
instance and no payload); in particular `runId=""`/`section="landing"` and
`runId="R7"`/`section="bogus"` both reject. -/
theorem regenerate_rejects_invalid_inputs (body : RegenBody)
    (h : pyStrip (pyOr body.runId "") = ""
         ∨ ¬ (pyLower (pyStrip (pyOr body.sect "")) ∈ allowedSections)) :
    regenerate body = RegenOutcome.rejected 400 regenErrorMsg := by
  simp only [regenerate]
  exact if_pos h

/-- C8, witnessed at the two boundary inputs of the claim. -/
theorem regenerate_rejects_invalid_inputs_witness :
    regenerate { runId := some "", sect := some "landing", tone := none, toneOverride := none }
      = RegenOutcome.rejected 400 regenErrorMsg
    ∧ regenerate { runId := some "R7", sect := some "bogus", tone := none, toneOverride := none }
      = RegenOutcome.rejected 400 regenErrorMsg :=
  ⟨regenerate_rejects_invalid_inputs _ (Or.inl (by decide)),
   regenerate_rejects_invalid_inputs _ (Or.inr (by decide))⟩

/-- C9: every Status Ledger write of every activity goes to the fixed path
`{prefix}status.json` as a full overwrite of a record of exactly the shape
`{runId, state, input: {rowCount, page}}`, with `rowCount` coerced via
`int(row_count or 0)` and `page` via `page or ""`; each activity's write list
contains no other status-path write. -/
theorem status_ledger_write_shape :
    (∀ (pre run_id state : String) (page : Option String) (rc : Option Int),
      _write_status pre run_id state page rc =
        { name := pre ++ "status.json"
          overwrite := true
          data := Json.obj [
            ("runId", Json.str run_id),
            ("state", Json.str state),
            ("input", Json.obj [
              ("rowCount", Json.int (pyOrInt rc 0)),
              ("page", Json.str (pyOr page ""))])] })
    ∧ (∀ i : ValidateIn, (validate_input_activity i).1
        = [_write_status i.pre i.run_id "ValidatingInput" (some i.page) (some i.row_count)])
    ∧ (∀ (i : EvidenceIn) (today : String), ∃ w,
        (evidence_builder_activity i today).1
          = [_write_status i.pre i.run_id "EvidenceBuilder" (some i.page) (some i.row_count), w]
        ∧ w.name ≠ _status_blob_path i.pre)
    ∧ (∀ i : DraftIn, ∃ w,
        (campaign_draft_activity i).1
          = [_write_status i.pre i.run_id "DraftCampaign" (some i.page) (some i.row_count), w]
        ∧ w.name ≠ _status_blob_path i.pre)
    ∧ (∀ i : ValidatorIn, (validator_activity i).1
        = [_write_status i.pre i.run_id "QualityGate" (some i.page) (some i.row_count),
           _write_status i.pre i.run_id "Completed" (some i.page) (some i.row_count)]) := by
  refine ⟨fun _ _ _ _ _ => rfl, fun _ => rfl, ?_, ?_, fun _ => rfl⟩
  · intro i today
    exact ⟨_, rfl, string_append_ne_right i.pre (by decide)⟩
  · intro i
    exact ⟨_, rfl, string_append_ne_right i.pre (by decide)⟩

/-- C10 counterexample: the supplied value `"Campaign"` lies outside
`{campaign, evidence, status, json}` yet is not answered with a 400 — the
endpoint lower-cases it first and proceeds to the (empty) suffix scan,
answering 404. -/
theorem fetch_unnormalized_kind_counterexample :
    fetch (some "r1") (some "Campaign") none []
      = { status_code := 404, body := Json.str "Not found" }
    ∧ ¬ (("Campaign" : String) ∈ ["campaign", "evidence", "status", "json"]) :=
  ⟨rfl, by decide⟩

/-- C10 amended: an absent (or empty) `file`/`kind` parameter defaults to
`campaign`; the alias `json` behaves exactly as `campaign`; the parameter is
normalised by `strip().lower()` and a 400 is returned exactly when the
normalised, defaulted value falls outside `{campaign, evidence, status,
json}`; a missing or empty `runId` is a 400; and an empty suffix scan is a
404. -/
theorem fetch_param_handling_amended :
    (∀ (rid : String) (blobs : List (String × String)),
      fetch (some rid) none none blobs = fetch (some rid) (some "campaign") none blobs)
    ∧ (∀ (rid : String) (blobs : List (String × String)),
      fetch (some rid) (some "json") none blobs = fetch (some rid) (some "campaign") none blobs)
    ∧ (∀ (rid k : String) (blobs : List (String × String)),
        rid ≠ "" →
        ¬ (pyLower (pyStrip (pyOr (some k) (pyOr none "campaign")))
            ∈ ["campaign", "evidence", "status", "json"]) →
        fetch (some rid) (some k) none blobs
          = { status_code := 400,
              body := Json.str "Invalid file param. Use campaign|evidence|status." })
    ∧ (∀ (f k : Option String) (blobs : List (String × String)),
        fetch none f k blobs = { status_code := 400, body := Json.str "Missing runId" })
    ∧ (∀ (f k : Option String) (blobs : List (String × String)),
        fetch (some "") f k blobs = { status_code := 400, body := Json.str "Missing runId" })
    ∧ (∀ (rid : String) (blobs : List (String × String)),
        rid ≠ "" → fetchLookup blobs rid "campaign.json" = none →
        fetch (some rid) none none blobs
          = { status_code := 404, body := Json.str "Not found" }) := by
  refine ⟨fun _ _ => rfl, fun _ _ => rfl, ?_, fun _ _ _ => rfl, fun _ _ _ => rfl, ?_⟩
  · intro rid k blobs hr hk
    simp only [List.mem_cons, List.not_mem_nil, or_false, not_or] at hk
    obtain ⟨h1, h2, h3, h4⟩ := hk
    rw [fetch_eval rid (some k) none blobs hr]
    rw [show fetchMapping.find?
          (fun p => p.1 = pyLower (pyStrip (pyOr (some k) (pyOr none "campaign")))) = none from ?_]
    exact List.find?_eq_none.mpr (by
      intro x hx
      fin_cases hx <;> simp <;>
        [exact Ne.symm h1; exact Ne.symm h2; exact Ne.symm h3; exact Ne.symm h4])
  · intro rid blobs hr hl
    rw [fetch_eval rid none none blobs hr]
    rw [show fetchMapping.find?
          (fun p => p.1 = pyLower (pyStrip (pyOr none (pyOr none "campaign"))))
          = some ("campaign", "campaign.json") from rfl]
    show (match fetchLookup blobs rid "campaign.json" with
          | none => ({ status_code := 404, body := Json.str "Not found" } : HttpResponse)
          | some b => { status_code := 200, body := Json.str b.2 })
        = { status_code := 404, body := Json.str "Not found" }
    rw [hl]

/-- C10 amended, witnessed: an unknown kind rejects with 400, a missing
`runId` rejects with 400, and an empty store answers 404 for the default
kind. -/
theorem fetch_param_handling_amended_witness :
    fetch (some "r1") (some "bogus") none []
      = { status_code := 400,
          body := Json.str "Invalid file param. Use campaign|evidence|status." }
    ∧ fetch none none none []
      = { status_code := 400, body := Json.str "Missing runId" }
    ∧ fetch (some "r1") none none []
      = { status_code := 404, body := Json.str "Not found" } :=
  ⟨fetch_param_handling_amended.2.2.1 "r1" "bogus" [] (by decide) (by decide),
   fetch_param_handling_amended.2.2.2.1 none none [],
   fetch_param_handling_amended.2.2.2.2.2 "r1" [] (by decide) rfl⟩
